import Mathlib

/-!
Verification of the `ChatBot` abstraction demonstrated in `example.ipynb`
(repository `llm-chatbot-function`).  The notebook imports the class from
`llm_utils.py`, which is not part of the repository sources; only its callers
(the three construction cells and the three exchange loops) and the captured
outputs of `get_response` are in the notebook.  The definitions below are
therefore modelled from the specification, anchored in the source facts the
notebook does show: the constructor keyword arguments
(`provider`, `model`, `temperature`, `max_tokens`, `top_p`), the three
provider strings `"openai"`, `"anthropic"`, `"mistral"`, and the exact
captured output format
`**Provider:** Openai | **Model:** gpt-4o-mini  \n**Tokens Used:** 248  \n\n**Assistant:**\n\n...`.
-/

namespace ChatBotSpec

/-- Neutral message roles of the data model (spec section 3). -/
inductive Role where
  | user
  | assistant
  | system
deriving DecidableEq, Repr

/-- Modelled from the spec: `Message` is `{role, content}`, immutable once
created (spec section 3); the class `llm_utils.ChatBot` holding it is not in
the notebook. -/
structure Message where
  role : Role
  content : String
deriving DecidableEq, Repr

/-- The closed set of supported vendors, as constructed in the notebook cells
(`provider="openai" | "anthropic" | "mistral"`). -/
inductive Provider where
  | openai
  | anthropic
  | mistral
deriving DecidableEq, Repr

/-- The lowercase provider identifier string passed to the constructor in the
notebook cells. -/
def providerName : Provider → String
  | .openai => "openai"
  | .anthropic => "anthropic"
  | .mistral => "mistral"

/-- Modelled from the spec: the error taxonomy of spec section 7
(`ConfigurationError`, `TransportError`, `VendorError`, `MalformedResponse`);
the raising code in `llm_utils.py` is not in the notebook. -/
inductive ChatError where
  | configurationError (msg : String)
  | transportError (msg : String)
  | vendorError (status : Nat) (msg : String)
  | malformedResponse (msg : String)
deriving DecidableEq, Repr

/-- Classifier: is this error a `ConfigurationError`? -/
def ChatError.isConfigurationError : ChatError → Bool
  | .configurationError _ => true
  | _ => false

/-- A JSON-like value, used to embed vendor HTTP response bodies so that
missing-field behaviour of `parse_response` can be stated. -/
inductive Json where
  | str (s : String)
  | num (n : Int)
  | arr (elems : List Json)
  | obj (fields : List (String × Json))
  | null
deriving Repr

/-- Field lookup on a JSON object; `none` on non-objects or missing keys. -/
def Json.getField : Json → String → Option Json
  | .obj fields, key => fields.lookup key
  | _, _ => none

/-- Index lookup on a JSON array; `none` on non-arrays or out of range. -/
def Json.getIndex : Json → Nat → Option Json
  | .arr elems, i => elems.get? i
  | _, _ => none

/-- String extraction from a JSON value. -/
def Json.getStr : Json → Option String
  | .str s => some s
  | _ => none

/-- Non-negative integer extraction from a JSON value. -/
def Json.getNat : Json → Option Nat
  | .num n => if 0 ≤ n then some n.toNat else none
  | _ => none

/-- Modelled from the spec: `ProviderResponse` is
`{text, tokens_used : non-negative int, raw}` (spec section 3); the parsing
code in `llm_utils.py` is not in the notebook. -/
structure ProviderResponse where
  text : String
  tokens_used : Nat
  raw : Json
deriving Repr

/-- Modelled from the spec: the OpenAI-style branch of
`ProviderAdapter.parse_response` (spec section 4.1) extracting the assistant
text from `choices[0].message.content` and the token-usage count from
`usage.total_tokens`; fails with `MalformedResponse` when a required field is
missing.  `llm_utils.py` is not in the notebook. -/
def parseOpenaiStyle (totalField : String) (body : Json) : Except ChatError ProviderResponse :=
  match body.getField "choices" with
  | none => .error (.malformedResponse "missing choices")
  | some choices =>
    match choices.getIndex 0 with
    | none => .error (.malformedResponse "empty choices")
    | some c0 =>
      match (c0.getField "message").bind (fun m => m.getField "content") with
      | none => .error (.malformedResponse "missing message content")
      | some contentJson =>
        match contentJson.getStr with
        | none => .error (.malformedResponse "content is not text")
        | some text =>
          match ((body.getField "usage").bind (fun u => u.getField totalField)).bind Json.getNat with
          | none => .error (.malformedResponse "missing usage")
          | some tok => .ok ⟨text, tok, body⟩

/-- Modelled from the spec: the Anthropic-style branch of
`ProviderAdapter.parse_response` (spec section 4.1) extracting the assistant
text from `content[0].text` and the token-usage count from the `usage` object
(input plus output tokens); fails with `MalformedResponse` when a required
field is missing.  `llm_utils.py` is not in the notebook. -/
def parseAnthropicStyle (body : Json) : Except ChatError ProviderResponse :=
  match body.getField "content" with
  | none => .error (.malformedResponse "missing content")
  | some content =>
    match content.getIndex 0 with
    | none => .error (.malformedResponse "empty content")
    | some c0 =>
      match (c0.getField "text").bind Json.getStr with
      | none => .error (.malformedResponse "missing text")
      | some text =>
        match body.getField "usage" with
        | none => .error (.malformedResponse "missing usage")
        | some usage =>
          match (usage.getField "input_tokens").bind Json.getNat,
                (usage.getField "output_tokens").bind Json.getNat with
          | some inTok, some outTok => .ok ⟨text, inTok + outTok, body⟩
          | _, _ => .error (.malformedResponse "missing usage tokens")

/-- Modelled from the spec: `ProviderAdapter.parse_response` dispatched on the
vendor variant chosen at construction (spec sections 4.1 and 9);
`llm_utils.py` is not in the notebook.  The Mistral wire schema is
OpenAI-style. -/
def parseResponse : Provider → Json → Except ChatError ProviderResponse
  | .openai => parseOpenaiStyle "total_tokens"
  | .mistral => parseOpenaiStyle "total_tokens"
  | .anthropic => parseAnthropicStyle

/-- The field of each vendor's response body whose absence the spec singles
out (spec section 8: missing "choices"/"content" field). -/
def requiredField : Provider → String
  | .openai => "choices"
  | .mistral => "choices"
  | .anthropic => "content"

/-- Modelled from the spec: the per-provider secrets resolved once at
construction from external configuration (spec section 3, `Credential`);
the `.env` loading shown in the notebook is a thin wrapper outside the core. -/
structure Credentials where
  openaiKey : Option String
  anthropicKey : Option String
  mistralKey : Option String
deriving DecidableEq, Repr

/-- The credential configured for a given provider, if any. -/
def Credentials.forProvider (c : Credentials) : Provider → Option String
  | .openai => c.openaiKey
  | .anthropic => c.anthropicKey
  | .mistral => c.mistralKey

/-- Modelled from the spec: the state of one `ChatBotClient` instance — the
bound provider, model, generation parameters (`RequestPolicy`), resolved
credential, and the owned `Conversation` history (spec sections 2 and 3).
The class `llm_utils.ChatBot` is not in the notebook; its constructor
keyword arguments are shown in the construction cells.  Floats are embedded
as rationals (the demonstrated values 0.7, 0.9 are exact decimals). -/
structure ChatBot where
  provider : Provider
  model : String
  temperature : Rat
  maxTokens : Int
  topP : Rat
  apiKey : String
  history : List Message
deriving DecidableEq, Repr

/-- Parse the `provider` constructor string into the closed vendor set. -/
def parseProvider : String → Option Provider
  | "openai" => some Provider.openai
  | "anthropic" => some Provider.anthropic
  | "mistral" => some Provider.mistral
  | _ => none

/-- Modelled from the spec: `ChatBotClient` construction.  Validation of the
`RequestPolicy` ranges happens here, not at call time (spec section 3:
"invalid values fail at construction"); an unsupported `provider` or a
missing credential raises `ConfigurationError` (spec section 7).  The set of
model strings a vendor accepts is vendor-side knowledge and is not checked
locally (the notebook successfully constructs with a model string absent from
its own introduction's model list).  `llm_utils.py` is not in the notebook. -/
def ChatBot.init (creds : Credentials) (provider model : String)
    (temperature : Rat) (maxTokens : Int) (topP : Rat) :
    Except ChatError ChatBot :=
  match parseProvider provider with
  | none => .error (.configurationError "unsupported provider")
  | some p =>
    match creds.forProvider p with
    | none => .error (.configurationError "missing credential")
    | some key =>
      if 0 ≤ temperature ∧ temperature ≤ 2 then
        if 0 < maxTokens then
          if 0 ≤ topP ∧ topP ≤ 1 then
            .ok ⟨p, model, temperature, maxTokens, topP, key, []⟩
          else .error (.configurationError "top_p out of range")
        else .error (.configurationError "max_tokens not positive")
      else .error (.configurationError "temperature out of range")

/-- A message in a vendor wire payload: the vendor's role token plus the
unchanged content. -/
structure WireMessage where
  role : String
  content : String
deriving DecidableEq, Repr

/-- Vendor role tokens: all three demonstrated vendors use "user" and
"assistant"; the system role is a message for the OpenAI/Mistral schema and a
dedicated top-level field for the Anthropic schema (spec section 4.1). -/
def roleToken : Role → String
  | .user => "user"
  | .assistant => "assistant"
  | .system => "system"

/-- Map a neutral message to a wire message. -/
def toWire (m : Message) : WireMessage :=
  ⟨roleToken m.role, m.content⟩

/-- Modelled from the spec: the outbound JSON body built by
`ProviderAdapter.build_request` (spec section 4.1).  One structure covers the
three vendor schemas: `system` is the Anthropic dedicated system field
(`none` for the other vendors, whose system turns stay in `messages`); the
generation parameters are encoded under each vendor's field names, which the
structure abstracts.  `llm_utils.py` is not in the notebook. -/
structure WirePayload where
  model : String
  system : Option String
  messages : List WireMessage
  temperature : Rat
  maxTokens : Int
  topP : Rat
deriving DecidableEq, Repr

/-- Modelled from the spec: `ProviderAdapter.build_request` over the full
conversation snapshot and the bound `RequestPolicy` (spec sections 4.1 and
4.3 step 3): the entire history, in order, with roles mapped to the vendor's
schema — for the Anthropic schema, system messages move to the dedicated
`system` field and the rest stay in `messages`; for OpenAI/Mistral all
messages including system ones are in `messages`.  The credential is an auth
header, not part of the body.  `llm_utils.py` is not in the notebook. -/
def ChatBot.buildRequest (b : ChatBot) : WirePayload :=
  match b.provider with
  | .anthropic =>
    { model := b.model
      system := ((b.history.filter (fun m => m.role = Role.system)).head?).map Message.content
      messages := (b.history.filter (fun m => ¬ m.role = Role.system)).map toWire
      temperature := b.temperature
      maxTokens := b.maxTokens
      topP := b.topP }
  | _ =>
    { model := b.model
      system := none
      messages := b.history.map toWire
      temperature := b.temperature
      maxTokens := b.maxTokens
      topP := b.topP }

/-- The outcome of the single blocking HTTP POST of a call (spec section 4.3
step 4), supplied as an explicit parameter in this embedding: a 2xx body, a
network failure/timeout, or a non-2xx status with a vendor error body. -/
inductive HttpOutcome where
  | success (body : Json)
  | timeout
  | httpError (status : Nat) (body : String)
deriving Repr

/-- Python's `str.capitalize`: first character upper-cased, the rest
lower-cased — the captured outputs show the lowercase constructor string
`"openai"` rendered as `Openai`. -/
def pythonCapitalize (s : String) : String :=
  match s.toList with
  | [] => ""
  | c :: rest => String.mk (c.toUpper :: rest.map Char.toLower)

/-- The formatted result string of a successful call.  Taken verbatim from
the captured outputs in the notebook, e.g.
`**Provider:** Openai | **Model:** gpt-4o-mini  \n**Tokens Used:** 248  \n\n**Assistant:**\n\n...`
(each header line ends with the two-space Markdown hard line break visible in
the raw notebook JSON). -/
def formatOutput (p : Provider) (model : String) (r : ProviderResponse) : String :=
  "**Provider:** " ++ pythonCapitalize (providerName p) ++ " | **Model:** " ++ model ++
    "  \n**Tokens Used:** " ++ toString r.tokens_used ++ "  \n\n**Assistant:**\n\n" ++ r.text

/-- What one call to `get_response` produced: the outbound payload actually
sent, the returned value or propagated error, and the client state after the
call. -/
structure CallResult where
  payload : WirePayload
  result : Except ChatError String
  client : ChatBot

/-- Modelled from the spec: `ChatBotClient.get_response` (spec section 4.3).
Steps: append the user turn (empty input is forwarded as-is, step 1–2); build
the request over the full snapshot (step 3); on HTTP success parse, append
the assistant turn and return the formatted string (step 5); on timeout raise
`TransportError`, on non-2xx raise `VendorError`, on a missing field raise
`MalformedResponse`, in every failure case leaving the user turn appended and
no assistant turn (step 6, spec section 7).  `llm_utils.py` is not in the
notebook; the HTTP outcome is an explicit parameter. -/
def ChatBot.getResponse (b : ChatBot) (userText : String) (outcome : HttpOutcome) :
    CallResult :=
  let b1 : ChatBot := { b with history := b.history ++ [⟨Role.user, userText⟩] }
  let payload := b1.buildRequest
  match outcome with
  | .timeout => ⟨payload, .error (.transportError "timeout"), b1⟩
  | .httpError status body => ⟨payload, .error (.vendorError status body), b1⟩
  | .success body =>
    match parseResponse b.provider body with
    | .error e => ⟨payload, .error e, b1⟩
    | .ok r =>
      ⟨payload, .ok (formatOutput b.provider b.model r),
        { b1 with history := b1.history ++ [⟨Role.assistant, r.text⟩] }⟩

/-- One call of a sequential scenario: the user text and the HTTP outcome the
vendor produced for it. -/
structure Call where
  userText : String
  outcome : HttpOutcome

/-- Run a sequence of calls on one instance, threading the client state, as
the notebook's exchange loops do. -/
def runCalls (b : ChatBot) : List Call → ChatBot
  | [] => b
  | c :: cs => runCalls (b.getResponse c.userText c.outcome).client cs

/-- The entries one call leaves in the store: the user turn always, plus the
assistant turn exactly when the call succeeded end to end. -/
def callEntries (p : Provider) (c : Call) : List Message :=
  match c.outcome with
  | .timeout => [⟨Role.user, c.userText⟩]
  | .httpError _ _ => [⟨Role.user, c.userText⟩]
  | .success body =>
    match parseResponse p body with
    | .error _ => [⟨Role.user, c.userText⟩]
    | .ok r => [⟨Role.user, c.userText⟩, ⟨Role.assistant, r.text⟩]

/-- A world of independent client instances (the notebook holds one per
provider); a call is issued on the instance at one index and the others are
untouched values. -/
def runAt (bots : List ChatBot) (i : Nat) (u : String) (o : HttpOutcome) :
    List ChatBot :=
  match bots.get? i with
  | none => bots
  | some b => bots.set i (b.getResponse u o).client

/-- Entries left by a list of calls, concatenated in order. -/
def entriesOfCalls (p : Provider) : List Call → List Message
  | [] => []
  | c :: cs => callEntries p c ++ entriesOfCalls p cs

/-- Helper: a call only ever appends to the history — the new client state is
the old one with `callEntries` appended, every other field unchanged. -/
theorem getResponse_client (b : ChatBot) (u : String) (o : HttpOutcome) :
    (b.getResponse u o).client
      = { b with history := b.history ++ callEntries b.provider ⟨u, o⟩ } := by
  cases o with
  | timeout => rfl
  | httpError status body => rfl
  | success body =>
    simp only [ChatBot.getResponse, callEntries]
    cases h : parseResponse b.provider body with
    | error e => simp
    | ok r => simp

/-- Helper: the outbound payload of a call is `build_request` over the
history extended with the just-added user message, whatever the outcome. -/
theorem getResponse_payload (b : ChatBot) (u : String) (o : HttpOutcome) :
    (b.getResponse u o).payload
      = ({ b with history := b.history ++ [⟨Role.user, u⟩] } : ChatBot).buildRequest := by
  cases o with
  | timeout => rfl
  | httpError status body => rfl
  | success body =>
    simp only [ChatBot.getResponse]
    cases h : parseResponse b.provider body with
    | error e => simp
    | ok r => simp

/-- Helper: when the history holds no system message (as in every
demonstrated flow: the constructor starts empty and calls append only user
and assistant turns), the payload message list is the whole history, mapped
to wire form, for every vendor. -/
theorem buildRequest_messages (b : ChatBot)
    (h : ∀ m ∈ b.history, m.role ≠ Role.system) :
    b.buildRequest.messages = b.history.map toWire := by
  cases hp : b.provider with
  | anthropic =>
    simp only [ChatBot.buildRequest, hp]
    rw [List.filter_eq_self.mpr]
    intro m hm
    simp [h m hm]
  | openai => simp [ChatBot.buildRequest, hp]
  | mistral => simp [ChatBot.buildRequest, hp]

/-- Concrete credentials with every provider key configured, for concrete
scenarios. -/
def demoCreds : Credentials := ⟨some "key-openai", some "key-anthropic", some "key-mistral"⟩

/-- The client of the first notebook construction cell:
`ChatBot(provider="openai", model="gpt-4o-mini", temperature=0.7, max_tokens=1500, top_p=0.9)`. -/
def demoOpenaiBot : ChatBot :=
  ⟨Provider.openai, "gpt-4o-mini", 7/10, 1500, 9/10, "key-openai", []⟩

/-- A well-formed OpenAI-style response body carrying the given assistant
text and total token count. -/
def okBodyOpenai (text : String) (tok : Nat) : Json :=
  .obj [("choices", .arr [.obj [("message",
          .obj [("role", .str "assistant"), ("content", .str text)])]]),
        ("usage", .obj [("total_tokens", .num tok)])]

/-- C1: every outbound payload contains the entire conversation up to and
including the just-added user message, in order, with roles mapped to the
vendor schema (stated for the demonstrated histories, which hold no system
turn); in particular the second sequential call of an instance that started
empty sends exactly 3 messages: first user, first assistant, second user. -/
theorem c1_outbound_contains_full_history :
    (∀ (b : ChatBot) (u : String) (o : HttpOutcome),
        (∀ m ∈ b.history, m.role ≠ Role.system) →
        (b.getResponse u o).payload.messages
          = (b.history ++ [Message.mk Role.user u]).map toWire)
    ∧ (∀ (b : ChatBot) (u1 : String) (body : Json) (r : ProviderResponse)
        (u2 : String) (o2 : HttpOutcome),
        b.history = [] → parseResponse b.provider body = .ok r →
        ((b.getResponse u1 (.success body)).client.getResponse u2 o2).payload.messages
          = [WireMessage.mk "user" u1, WireMessage.mk "assistant" r.text,
             WireMessage.mk "user" u2]) := by
  constructor
  · intro b u o h
    rw [getResponse_payload, buildRequest_messages]
    intro m hm
    rcases List.mem_append.mp hm with h1 | h2
    · exact h m h1
    · simp only [List.mem_singleton] at h2
      subst h2
      simp
  · intro b u1 body r u2 o2 hemp hr
    rw [getResponse_payload, buildRequest_messages]
    · rw [getResponse_client]
      simp [callEntries, hr, hemp, toWire, roleToken]
    · rw [getResponse_client]
      intro m hm
      simp only [callEntries, hr, hemp] at hm
      simp only [List.nil_append, List.mem_append, List.mem_cons,
        List.not_mem_nil, or_false] at hm
      rcases hm with (h1 | h1) | h1 <;> subst h1 <;> simp

/-- Witness for C1 at the demonstrated inputs: a first call on the fresh
openai client sends exactly its one user message, and the second sequential
call sends exactly first user, first assistant, second user. -/
theorem c1_witness :
    (demoOpenaiBot.getResponse "Hello" HttpOutcome.timeout).payload.messages
        = [WireMessage.mk "user" "Hello"]
    ∧ ((demoOpenaiBot.getResponse "First question"
          (.success (okBodyOpenai "First answer" 248))).client.getResponse
            "Second question" HttpOutcome.timeout).payload.messages
        = [WireMessage.mk "user" "First question",
           WireMessage.mk "assistant" "First answer",
           WireMessage.mk "user" "Second question"] := by
  constructor
  · rw [c1_outbound_contains_full_history.1 demoOpenaiBot "Hello" HttpOutcome.timeout
      (by intro m hm; simp [demoOpenaiBot] at hm)]
    rfl
  · exact c1_outbound_contains_full_history.2 demoOpenaiBot "First question"
      (okBodyOpenai "First answer" 248)
      ⟨"First answer", 248, okBodyOpenai "First answer" 248⟩
      "Second question" HttpOutcome.timeout rfl rfl

/-- C2: after any sequence of calls on one instance, the store holds exactly
the old history followed by, for each call in order, its user turn and — on
success — its assistant turn; failed calls leave a user-only entry.  Every
prefix of a call sequence is itself a call sequence, so this settles the
snapshot after each call i of N.  Append is total (list append) and the
snapshot is the full, untruncated history field. -/
theorem c2_snapshot_accumulates :
    ∀ (b : ChatBot) (cs : List Call),
      (runCalls b cs).history = b.history ++ entriesOfCalls b.provider cs := by
  intro b cs
  induction cs generalizing b with
  | nil => simp [runCalls, entriesOfCalls]
  | cons c cs ih =>
    rw [runCalls, ih, getResponse_client]
    simp [entriesOfCalls, List.append_assoc]

/-- C3: a failed call (timeout raising the transport error, or any other
failure) leaves the user turn appended and no assistant turn, and a retry of
the same failing call appends the same user turn again as a duplicate rather
than rolling back. -/
theorem c3_failure_keeps_user_turn :
    ∀ (b : ChatBot) (u : String),
      ((b.getResponse u HttpOutcome.timeout).result
          = .error (.transportError "timeout"))
      ∧ (b.getResponse u HttpOutcome.timeout).client.history
          = b.history ++ [Message.mk Role.user u]
      ∧ (∀ o : HttpOutcome, (b.getResponse u o).result.isOk = false →
          (b.getResponse u o).client.history = b.history ++ [Message.mk Role.user u])
      ∧ ((b.getResponse u HttpOutcome.timeout).client.getResponse u
            HttpOutcome.timeout).client.history
          = b.history ++ [Message.mk Role.user u, Message.mk Role.user u] := by
  intro b u
  refine ⟨rfl, rfl, ?_, ?_⟩
  · intro o hfail
    cases o with
    | timeout => rfl
    | httpError status body => rfl
    | success body =>
      rw [getResponse_client]
      simp only [ChatBot.getResponse] at hfail ⊢
      cases h : parseResponse b.provider body with
      | error e => simp [callEntries, h]
      | ok r => simp [Except.isOk, Except.toBool, h] at hfail
  · rw [getResponse_client, getResponse_client]
    simp [callEntries]

/-- Witness for C3: at a concrete client and input, the implication of the
third conjunct is discharged at the timeout outcome. -/
theorem c3_witness :
    (demoOpenaiBot.getResponse "Hello" HttpOutcome.timeout).client.history
        = demoOpenaiBot.history ++ [Message.mk Role.user "Hello"] :=
  (c3_failure_keeps_user_turn demoOpenaiBot "Hello").2.2.1 HttpOutcome.timeout rfl

/-- A well-formed Anthropic-style response body carrying the given assistant
text and token count. -/
def okBodyAnthropic (text : String) (tok : Nat) : Json :=
  .obj [("content", .arr [.obj [("type", .str "text"), ("text", .str text)]]),
        ("usage", .obj [("input_tokens", .num tok), ("output_tokens", .num 0)])]

/-- The canonical well-formed response body of each vendor, carrying the
given assistant text and token count (the shape of the captured real
responses). -/
def okBody : Provider → String → Nat → Json
  | .openai, text, tok => okBodyOpenai text tok
  | .mistral, text, tok => okBodyOpenai text tok
  | .anthropic, text, tok => okBodyAnthropic text tok

/-- C4: for every vendor, an HTTP-success body missing its required field
("choices" for the OpenAI/Mistral shapes, "content" for the Anthropic
shape) makes `parse_response` fail with `MalformedResponse` — the parser is a
total function into `Except`, so no generic crash is possible — and every
well-formed body yields a `ProviderResponse` with the assistant text and the
token-usage count. -/
theorem c4_parse_missing_field_malformed :
    (∀ (p : Provider) (body : Json),
        body.getField (requiredField p) = none →
        parseResponse p body
          = .error (.malformedResponse ("missing " ++ requiredField p)))
    ∧ (∀ (p : Provider) (text : String) (tok : Nat),
        parseResponse p (okBody p text tok)
          = .ok ⟨text, tok, okBody p text tok⟩) := by
  constructor
  · intro p body h
    cases p <;>
      simp only [parseResponse, parseOpenaiStyle, parseAnthropicStyle, requiredField] at h ⊢ <;>
      rw [h] <;> rfl
  · intro p text tok
    cases p <;>
      simp [parseResponse, parseOpenaiStyle, parseAnthropicStyle, okBody,
        okBodyOpenai, okBodyAnthropic, Json.getField, Json.getIndex,
        Json.getStr, Json.getNat, List.lookup]

/-- Witness for C4: the empty JSON object is missing every required field
and is rejected as malformed for each vendor, and a concrete captured-shape
body parses to its text and token count. -/
theorem c4_witness :
    (parseResponse Provider.openai (.obj [])
        = .error (.malformedResponse ("missing " ++ requiredField Provider.openai)))
    ∧ (parseResponse Provider.anthropic (.obj [])
        = .error (.malformedResponse ("missing " ++ requiredField Provider.anthropic)))
    ∧ (parseResponse Provider.mistral (.obj [])
        = .error (.malformedResponse ("missing " ++ requiredField Provider.mistral)))
    ∧ (parseResponse Provider.openai (okBody Provider.openai "Sure!" 248)
        = .ok ⟨"Sure!", 248, okBody Provider.openai "Sure!" 248⟩) :=
  ⟨c4_parse_missing_field_malformed.1 Provider.openai (.obj []) rfl,
   c4_parse_missing_field_malformed.1 Provider.anthropic (.obj []) rfl,
   c4_parse_missing_field_malformed.1 Provider.mistral (.obj []) rfl,
   c4_parse_missing_field_malformed.2 Provider.openai "Sure!" 248⟩

/-- C5: every successful call returns one formatted string combining, in
this stable order, the provider name, the model name, the token count and the
assistant text, and appends the assistant message with exactly the parsed
text to the store. -/
theorem c5_success_returns_formatted_and_appends :
    ∀ (b : ChatBot) (u : String) (body : Json) (r : ProviderResponse),
      parseResponse b.provider body = .ok r →
      (b.getResponse u (.success body)).result
          = .ok ("**Provider:** " ++ pythonCapitalize (providerName b.provider)
              ++ " | **Model:** " ++ b.model
              ++ "  \n**Tokens Used:** " ++ toString r.tokens_used
              ++ "  \n\n**Assistant:**\n\n" ++ r.text)
      ∧ (b.getResponse u (.success body)).client.history
          = b.history ++ [Message.mk Role.user u, Message.mk Role.assistant r.text] := by
  intro b u body r h
  constructor
  · simp [ChatBot.getResponse, h, formatOutput]
  · rw [getResponse_client]
    simp [callEntries, h]

/-- Witness for C5 at the demonstrated openai client and a captured-shape
body: the formatted string and the two appended turns are produced. -/
theorem c5_witness :
    (demoOpenaiBot.getResponse "Hello" (.success (okBodyOpenai "Sure!" 248))).result
        = .ok ("**Provider:** " ++ pythonCapitalize (providerName demoOpenaiBot.provider)
            ++ " | **Model:** " ++ demoOpenaiBot.model
            ++ "  \n**Tokens Used:** " ++ toString (248 : Nat)
            ++ "  \n\n**Assistant:**\n\n" ++ "Sure!")
    ∧ (demoOpenaiBot.getResponse "Hello" (.success (okBodyOpenai "Sure!" 248))).client.history
        = demoOpenaiBot.history
            ++ [Message.mk Role.user "Hello", Message.mk Role.assistant "Sure!"] :=
  c5_success_returns_formatted_and_appends demoOpenaiBot "Hello"
    (okBodyOpenai "Sure!" 248) ⟨"Sure!", 248, okBodyOpenai "Sure!" 248⟩ rfl

/-- C6: `build_request` is a pure function of the conversation snapshot and
the bound policy alone — two clients of the same vendor agreeing on history,
model and generation parameters produce identical payloads, even when every
other field (the credential) differs. -/
theorem c6_build_request_deterministic :
    ∀ b1 b2 : ChatBot,
      b1.provider = b2.provider → b1.history = b2.history →
      b1.model = b2.model → b1.temperature = b2.temperature →
      b1.maxTokens = b2.maxTokens → b1.topP = b2.topP →
      b1.buildRequest = b2.buildRequest := by
  intro b1 b2 hp hh hm ht hmt htp
  cases b1
  cases b2
  simp only at hp hh hm ht hmt htp
  subst hp hh hm ht hmt htp
  cases ‹Provider› <;> rfl

/-- Witness for C6: two concrete clients differing only in their credential
produce the same payload. -/
theorem c6_witness :
    ChatBot.buildRequest
        ⟨Provider.openai, "gpt-4o-mini", 7/10, 1500, 9/10, "key-one",
          [Message.mk Role.user "Hello"]⟩
      = ChatBot.buildRequest
        ⟨Provider.openai, "gpt-4o-mini", 7/10, 1500, 9/10, "key-two",
          [Message.mk Role.user "Hello"]⟩ :=
  c6_build_request_deterministic _ _ rfl rfl rfl rfl rfl rfl

/-- Helper: every error `parse_response` produces is a `MalformedResponse`,
never a `ConfigurationError`. -/
theorem parseResponse_error_not_config (p : Provider) (body : Json) (e : ChatError)
    (h : parseResponse p body = .error e) : e.isConfigurationError = false := by
  cases p <;> simp only [parseResponse, parseOpenaiStyle, parseAnthropicStyle] at h <;>
    (repeat' split at h) <;> simp at h <;> subst h <;> rfl

/-- Helper: construction succeeds exactly when the provider is supported, its
credential is configured, and every `RequestPolicy` range constraint holds. -/
theorem init_ok_iff (creds : Credentials) (provider model : String)
    (t : Rat) (mt : Int) (tp : Rat) :
    (ChatBot.init creds provider model t mt tp).isOk = true ↔
      ((∃ p, parseProvider provider = some p ∧ (creds.forProvider p).isSome = true)
        ∧ 0 ≤ t ∧ t ≤ 2 ∧ 0 < mt ∧ 0 ≤ tp ∧ tp ≤ 1) := by
  unfold ChatBot.init
  cases hp : parseProvider provider with
  | none => simp [Except.isOk, Except.toBool, hp]
  | some p =>
    cases hc : creds.forProvider p with
    | none => simp [Except.isOk, Except.toBool, hc]
    | some key =>
      split_ifs with h1 h2 h3 <;>
        simp_all [Except.isOk, Except.toBool]

/-- Helper: every construction failure is a `ConfigurationError`. -/
theorem init_error_is_config (creds : Credentials) (provider model : String)
    (t : Rat) (mt : Int) (tp : Rat) (e : ChatError)
    (h : ChatBot.init creds provider model t mt tp = .error e) :
    e.isConfigurationError = true := by
  unfold ChatBot.init at h
  (repeat' split at h) <;> simp at h <;> subst h <;> rfl

/-- C7: the `RequestPolicy` ranges (temperature in [0,2], positive
max_tokens, top_p in [0,1]) and the provider/credential configuration are
validated at construction — construction succeeds exactly when all hold and
every construction failure is a `ConfigurationError`; no call ever raises a
policy-validation (configuration) error; and a call changes nothing of the
bound policy. -/
theorem c7_policy_validated_at_construction :
    (∀ (creds : Credentials) (provider model : String) (t : Rat) (mt : Int) (tp : Rat),
        (ChatBot.init creds provider model t mt tp).isOk = true ↔
          ((∃ p, parseProvider provider = some p ∧ (creds.forProvider p).isSome = true)
            ∧ 0 ≤ t ∧ t ≤ 2 ∧ 0 < mt ∧ 0 ≤ tp ∧ tp ≤ 1))
    ∧ (∀ (creds : Credentials) (provider model : String) (t : Rat) (mt : Int)
        (tp : Rat) (e : ChatError),
        ChatBot.init creds provider model t mt tp = .error e →
        e.isConfigurationError = true)
    ∧ (∀ (b : ChatBot) (u : String) (o : HttpOutcome) (e : ChatError),
        (b.getResponse u o).result = .error e → e.isConfigurationError = false)
    ∧ (∀ (b : ChatBot) (u : String) (o : HttpOutcome),
        (b.getResponse u o).client.provider = b.provider
        ∧ (b.getResponse u o).client.model = b.model
        ∧ (b.getResponse u o).client.temperature = b.temperature
        ∧ (b.getResponse u o).client.maxTokens = b.maxTokens
        ∧ (b.getResponse u o).client.topP = b.topP) := by
  refine ⟨init_ok_iff, init_error_is_config, ?_, ?_⟩
  · intro b u o e h
    cases o with
    | timeout =>
      simp [ChatBot.getResponse] at h
      subst h
      rfl
    | httpError status body =>
      simp [ChatBot.getResponse] at h
      subst h
      rfl
    | success body =>
      simp only [ChatBot.getResponse] at h
      cases hp : parseResponse b.provider body with
      | error eparse =>
        rw [hp] at h
        simp at h
        subst h
        exact parseResponse_error_not_config b.provider body eparse hp
      | ok r =>
        rw [hp] at h
        simp at h
  · intro b u o
    rw [getResponse_client]
    exact ⟨rfl, rfl, rfl, rfl, rfl⟩

/-- Witness for C7: construction with the first notebook cell parameters
succeeds; construction with an unknown provider fails with a
`ConfigurationError`; a timed-out call raises a non-configuration error; a
call leaves the policy of the demonstrated client unchanged. -/
theorem c7_witness :
    ((ChatBot.init demoCreds "openai" "gpt-4o-mini" (7/10) 1500 (9/10)).isOk = true)
    ∧ ChatError.isConfigurationError (.configurationError "unsupported provider") = true
    ∧ ChatError.isConfigurationError (.transportError "timeout") = false
    ∧ (demoOpenaiBot.getResponse "Hello" HttpOutcome.timeout).client.temperature
        = demoOpenaiBot.temperature := by
  refine ⟨?_, ?_, ?_, ?_⟩
  · exact (c7_policy_validated_at_construction.1 demoCreds "openai" "gpt-4o-mini"
      (7/10) 1500 (9/10)).mpr
      ⟨⟨Provider.openai, rfl, rfl⟩, by norm_num, by norm_num, by norm_num,
        by norm_num, by norm_num⟩
  · exact c7_policy_validated_at_construction.2.1 demoCreds "gemini" "g-1"
      (7/10) 1500 (9/10) (.configurationError "unsupported provider") rfl
  · exact c7_policy_validated_at_construction.2.2.1 demoOpenaiBot "Hello"
      HttpOutcome.timeout (.transportError "timeout") rfl
  · exact (c7_policy_validated_at_construction.2.2.2 demoOpenaiBot "Hello"
      HttpOutcome.timeout).2.2.1

/-- C8: the empty user text is not rejected — the call appends the empty
user message, forwards it unchanged to the vendor inside the full-history
payload exactly as a non-empty text would be, and a parseable success still
returns the formatted result. -/
theorem c8_empty_input_forwarded :
    ∀ (b : ChatBot) (o : HttpOutcome),
      (b.getResponse "" o).payload
          = ({ b with history := b.history ++ [Message.mk Role.user ""] } : ChatBot).buildRequest
      ∧ (b.getResponse "" o).client.history
          = b.history ++ callEntries b.provider ⟨"", o⟩
      ∧ ((∀ m ∈ b.history, m.role ≠ Role.system) →
          (b.getResponse "" o).payload.messages
            = (b.history ++ [Message.mk Role.user ""]).map toWire)
      ∧ (∀ (body : Json) (r : ProviderResponse),
          parseResponse b.provider body = .ok r →
          (b.getResponse "" (.success body)).result
            = .ok (formatOutput b.provider b.model r)) := by
  intro b o
  refine ⟨getResponse_payload b "" o, ?_, ?_, ?_⟩
  · rw [getResponse_client]
  · intro h
    rw [getResponse_payload, buildRequest_messages]
    intro m hm
    rcases List.mem_append.mp hm with h1 | h2
    · exact h m h1
    · simp only [List.mem_singleton] at h2
      subst h2
      simp
  · intro body r hr
    simp [ChatBot.getResponse, hr]

/-- Witness for C8: the demonstrated openai client called with the empty
string appends the empty user turn and still succeeds on a parseable body. -/
theorem c8_witness :
    (demoOpenaiBot.getResponse "" HttpOutcome.timeout).client.history
        = demoOpenaiBot.history ++ callEntries demoOpenaiBot.provider
            ⟨"", HttpOutcome.timeout⟩
    ∧ (demoOpenaiBot.getResponse "" HttpOutcome.timeout).payload.messages
        = (demoOpenaiBot.history ++ [Message.mk Role.user ""]).map toWire
    ∧ (demoOpenaiBot.getResponse "" (.success (okBodyOpenai "Sure!" 248))).result
        = .ok (formatOutput demoOpenaiBot.provider demoOpenaiBot.model
            ⟨"Sure!", 248, okBodyOpenai "Sure!" 248⟩) :=
  ⟨(c8_empty_input_forwarded demoOpenaiBot HttpOutcome.timeout).2.1,
   (c8_empty_input_forwarded demoOpenaiBot HttpOutcome.timeout).2.2.1
     (by intro m hm; simp [demoOpenaiBot] at hm),
   (c8_empty_input_forwarded demoOpenaiBot (.success (okBodyOpenai "Sure!" 248))).2.2.2
     (okBodyOpenai "Sure!" 248) ⟨"Sure!", 248, okBodyOpenai "Sure!" 248⟩ rfl⟩

/-- C9: a call issued on one instance of a world of clients leaves every
other instance — its conversation and all its other state — unchanged; no
conversation is shared between instances. -/
theorem c9_instance_isolation :
    ∀ (bots : List ChatBot) (i j : Nat) (u : String) (o : HttpOutcome),
      j ≠ i → (runAt bots i u o).get? j = bots.get? j := by
  intro bots i j u o hne
  unfold runAt
  cases h : bots.get? i with
  | none => rfl
  | some b =>
    simp only [List.get?_eq_getElem?]
    exact List.getElem?_set_ne (Ne.symm hne)

/-- Witness for C9: in a two-client world, a call on the first client leaves
the second client unchanged. -/
theorem c9_witness :
    (runAt [demoOpenaiBot,
        ChatBot.mk Provider.anthropic "claude-3-5-sonnet-20240620" (7/10) 1500 (9/10)
          "key-anthropic" []]
      0 "Hello" HttpOutcome.timeout).get? 1
      = some (ChatBot.mk Provider.anthropic "claude-3-5-sonnet-20240620" (7/10) 1500 (9/10)
          "key-anthropic" []) :=
  c9_instance_isolation
    [demoOpenaiBot,
     ChatBot.mk Provider.anthropic "claude-3-5-sonnet-20240620" (7/10) 1500 (9/10)
       "key-anthropic" []]
    0 1 "Hello" HttpOutcome.timeout (by decide)

/-- Split a character list into newline-separated line chunks. -/
def splitLinesAux : List Char → List Char → List String
  | [], acc => [String.mk acc.reverse]
  | c :: rest, acc =>
    if c = '\n' then String.mk acc.reverse :: splitLinesAux rest []
    else splitLinesAux rest (c :: acc)

/-- The lines of a string, in order, with newline separators removed. -/
def splitLines (s : String) : List String :=
  splitLinesAux s.toList []

/-- C10 counterexample: at a concrete successful call of the demonstrated
openai client, the returned string (exactly the captured-output format) has a
first line that is NOT the bare header `**Provider:** Openai | **Model:**
gpt-4o-mini` — the line carries two trailing spaces, the Markdown hard line
break visible in the raw notebook JSON. -/
theorem c10_counterexample :
    (demoOpenaiBot.getResponse "Hello" (.success (okBodyOpenai "Sure!" 248))).result
        = .ok "**Provider:** Openai | **Model:** gpt-4o-mini  \n**Tokens Used:** 248  \n\n**Assistant:**\n\nSure!"
    ∧ (splitLines "**Provider:** Openai | **Model:** gpt-4o-mini  \n**Tokens Used:** 248  \n\n**Assistant:**\n\nSure!").head?
        ≠ some "**Provider:** Openai | **Model:** gpt-4o-mini" :=
  ⟨rfl, by decide⟩

/-- C10 (amended): every successful call returns the exact template
`**Provider:** P | **Model:** M` and `**Tokens Used:** N` as its first two
lines, each followed by the two-space Markdown hard line break, with P the
lowercase provider identifier first-letter-capitalized, M the constructor
model string unchanged, N the decimal token count, and the assistant text
after the blank line and `**Assistant:**` banner. -/
theorem c10_header_format :
    (∀ (b : ChatBot) (u : String) (body : Json) (r : ProviderResponse),
        parseResponse b.provider body = .ok r →
        (b.getResponse u (.success body)).result
          = .ok ("**Provider:** " ++ pythonCapitalize (providerName b.provider)
              ++ " | **Model:** " ++ b.model
              ++ "  \n**Tokens Used:** " ++ toString r.tokens_used
              ++ "  \n\n**Assistant:**\n\n" ++ r.text))
    ∧ pythonCapitalize (providerName Provider.openai) = "Openai"
    ∧ pythonCapitalize (providerName Provider.anthropic) = "Anthropic"
    ∧ pythonCapitalize (providerName Provider.mistral) = "Mistral"
    ∧ ((splitLines "**Provider:** Openai | **Model:** gpt-4o-mini  \n**Tokens Used:** 248  \n\n**Assistant:**\n\nSure!").take 2
        = ["**Provider:** Openai | **Model:** gpt-4o-mini  ",
           "**Tokens Used:** 248  "]) := by
  refine ⟨?_, by decide, by decide, by decide, by decide⟩
  intro b u body r hr
  simp [ChatBot.getResponse, hr, formatOutput]

/-- Witness for C10 at the demonstrated openai client and a captured-shape
body. -/
theorem c10_witness :
    (demoOpenaiBot.getResponse "Hello" (.success (okBodyOpenai "Sure!" 248))).result
        = .ok ("**Provider:** " ++ pythonCapitalize (providerName demoOpenaiBot.provider)
            ++ " | **Model:** " ++ demoOpenaiBot.model
            ++ "  \n**Tokens Used:** " ++ toString (248 : Nat)
            ++ "  \n\n**Assistant:**\n\n" ++ "Sure!") :=
  c10_header_format.1 demoOpenaiBot "Hello" (okBodyOpenai "Sure!" 248)
    ⟨"Sure!", 248, okBodyOpenai "Sure!" 248⟩ rfl

end ChatBotSpec
